import Mathlib

/-!
Shallow embedding of the Chat Heretics real-time gateway
(backend/src/utils/socket.ts): authentication middleware, the
process-wide online-users map, Socket.io room membership and event
fan-out, and the connection / send-message / typing / disconnect
handlers, together with theorems about their observable behavior.
-/

namespace ChatHeretics

/-- A user record as stored in the document store (fields used by the
gateway: the Mongo id, the Clerk id and the profile fields selected by
populate). -/
structure User where
  id : String
  clerkId : String
  name : String
  email : String
  avatar : String
deriving DecidableEq, Repr

/-- A chat document: participant identities, the last-message reference
and the last-activity timestamp. -/
structure Chat where
  id : String
  participants : List String
  lastMessage : Option Nat
  lastMessageAt : Option Nat
deriving DecidableEq, Repr

/-- A message document as persisted by Message.create. -/
structure Message where
  id : Nat
  chat : String
  sender : String
  text : String
deriving DecidableEq, Repr

/-- The sender profile attached by message.populate for delivery only
(name, email, avatar). -/
structure SenderProfile where
  name : String
  email : String
  avatar : String
deriving DecidableEq, Repr

/-- The message payload after populate: the persisted record plus the
denormalized sender profile. -/
structure PopulatedMessage where
  msg : Message
  senderProfile : Option SenderProfile
deriving DecidableEq, Repr

/-- Event payloads emitted by the gateway. -/
inductive Payload where
  | onlineUsers (userIds : List String)
  | userOnline (userId : String)
  | userOffline (userId : String)
  | newMessage (m : PopulatedMessage)
  | typing (userId : String) (chatId : String) (isTyping : Bool)
  | socketError (message : String)
deriving DecidableEq, Repr

/-- The Socket.io delivery target of one emit call: socket.emit,
socket.broadcast.emit, io.to(room).emit, socket.to(room).emit. -/
inductive Target where
  | socket (sid : String)
  | broadcastFrom (sid : String)
  | room (key : String)
  | roomExcept (key : String) (sid : String)
deriving DecidableEq, Repr

/-- One emit call: target, event name, payload. -/
structure Emission where
  target : Target
  event : String
  payload : Payload
deriving DecidableEq, Repr

/-- JS Map.set: replace the value in place if the key exists, keeping
insertion order, otherwise append a new entry. -/
def mapSet : List (String × String) → String → String → List (String × String)
  | [], k, v => [(k, v)]
  | (k', v') :: rest, k, v =>
    if k' = k then (k, v) :: rest else (k', v') :: mapSet rest k v

/-- JS Map.get. -/
def mapGet : List (String × String) → String → Option String
  | [], _ => none
  | (k', v') :: rest, k => if k' = k then some v' else mapGet rest k

/-- JS Map.delete: remove the entry with the given key, if any. -/
def mapDelete (m : List (String × String)) (k : String) : List (String × String) :=
  m.filter (fun p => p.1 ≠ k)

/-- Array.from(map.keys()): the keys in insertion order. -/
def mapKeys (m : List (String × String)) : List String :=
  m.map Prod.fst

/-- Room key used by join-chat / leave-chat and the message fan-out:
the chat: prefix plus the chat identifier. -/
def chatRoomKey (chatId : String) : String :=
  "chat:" ++ chatId

/-- Room key of a personal room: the user: prefix plus the identity. -/
def userRoomKey (userId : String) : String :=
  "user:" ++ userId

/-- socket.join: idempotent room membership, stored as
(roomKey, socketId) pairs. -/
def joinRoom (rooms : List (String × String)) (key sid : String) :
    List (String × String) :=
  if rooms.contains (key, sid) then rooms else rooms ++ [(key, sid)]

/-- Membership test of a socket in a room. -/
def inRoom (rooms : List (String × String)) (key sid : String) : Bool :=
  rooms.contains (key, sid)

/-- The whole observable state of the gateway process: the online-users
map, room memberships, the set of connected sockets, and the document
store (users, chats, messages) with a counter for fresh message ids. -/
structure ServerState where
  onlineUsers : List (String × String)
  rooms : List (String × String)
  connected : List String
  users : List User
  chats : List Chat
  messages : List Message
  nextMessageId : Nat
deriving DecidableEq, Repr

/-- The state of a freshly started gateway process. -/
def emptyState : ServerState :=
  { onlineUsers := [], rooms := [], connected := [], users := [],
    chats := [], messages := [], nextMessageId := 0 }

/-- Whether a single emit call reaches socket t in state st:
socket.emit reaches exactly that socket; socket.broadcast.emit reaches
every other connected socket; io.to(room).emit reaches every connected
member of the room; socket.to(room).emit additionally excludes the
sender. -/
def deliversTo (st : ServerState) (e : Emission) (t : String) : Bool :=
  match e.target with
  | .socket sid => sid == t && st.connected.contains t
  | .broadcastFrom sid => sid != t && st.connected.contains t
  | .room key => st.connected.contains t && inRoom st.rooms key t
  | .roomExcept key sid => sid != t && st.connected.contains t && inRoom st.rooms key t

/-- The emissions of a batch that reach socket t in state st. -/
def deliveredTo (st : ServerState) (ems : List Emission) (t : String) :
    List Emission :=
  ems.filter (fun e => deliversTo st e t)

/-- The io.use authentication middleware: reject a missing or empty
token without calling the verifier; otherwise verify the token, look up
the local user by Clerk id, and admit with the Mongo user id as the
identity. The Bool records whether the Identity Verifier was invoked. -/
def authMiddleware (verifyToken : String → Option String)
    (findUserByClerkId : String → Option User) (token : Option String) :
    Except String String × Bool :=
  match token with
  | none => (.error "Unauthorized", false)
  | some t =>
    if t = "" then (.error "Unauthorized", false)
    else
      match verifyToken t with
      | none => (.error "Unauthorized", true)
      | some clerkId =>
        match findUserByClerkId clerkId with
        | none => (.error "User not found!", true)
        | some user => (.ok user.id, true)

/-- The io.on connection handler: emit the online-users snapshot to the
new socket, register the identity in the online-users map, broadcast
user-online to everyone else, and join the personal room. -/
def connectionHandler (st : ServerState) (userId sid : String) :
    ServerState × List Emission :=
  let ems := [⟨.socket sid, "online-users", .onlineUsers (mapKeys st.onlineUsers)⟩,
              ⟨.broadcastFrom sid, "user-online", .userOnline userId⟩]
  ({ st with onlineUsers := mapSet st.onlineUsers userId sid,
             rooms := joinRoom st.rooms (userRoomKey userId) sid }, ems)

/-- Transport-level accept followed by the connection handler: the new
socket is connected before the handler runs. -/
def acceptConnection (st : ServerState) (userId sid : String) :
    ServerState × List Emission :=
  connectionHandler { st with connected := st.connected ++ [sid] } userId sid

/-- A full connection attempt: run the auth middleware; on rejection
nothing else happens, on success the connection is accepted. The Bool
is whether the connection was admitted. -/
def processConnectionAttempt (verifyToken : String → Option String)
    (findUserByClerkId : String → Option User) (st : ServerState)
    (token : Option String) (sid : String) :
    ServerState × List Emission × Bool :=
  match (authMiddleware verifyToken findUserByClerkId token).1 with
  | .error _ => (st, [], false)
  | .ok userId =>
    let r := acceptConnection st userId sid
    (r.1, r.2, true)

/-- The join-chat handler: join the chat: room for the given id. -/
def joinChatHandler (st : ServerState) (sid chatId : String) : ServerState :=
  { st with rooms := joinRoom st.rooms (chatRoomKey chatId) sid }

/-- The leave-chat handler: leave the chat: room for the given id. -/
def leaveChatHandler (st : ServerState) (sid chatId : String) : ServerState :=
  { st with rooms := st.rooms.filter (fun r => !(r.1 == chatRoomKey chatId && r.2 == sid)) }

/-- message.populate("sender", "name email avatar"): attach the sender
profile looked up in the user store. -/
def populateSender (users : List User) (m : Message) : PopulatedMessage :=
  ⟨m, (users.find? (fun u => u.id == m.sender)).map (fun u => ⟨u.name, u.email, u.avatar⟩)⟩

/-- The send-message handler: find the chat with the sender among its
participants; if absent emit one socket-error to the sender and stop;
otherwise create the message, update lastMessage / lastMessageAt on the
chat, populate the sender, and emit new-message to the chat room and to
the personal room of every participant. -/
def sendMessageHandler (st : ServerState) (userId sid chatId text : String)
    (now : Nat) : ServerState × List Emission :=
  match st.chats.find? (fun c => c.id == chatId && c.participants.contains userId) with
  | none => (st, [⟨.socket sid, "socket-error", .socketError "Chat not found"⟩])
  | some chat =>
    let message : Message := ⟨st.nextMessageId, chatId, userId, text⟩
    let st1 : ServerState :=
      { st with
        messages := st.messages ++ [message],
        chats := st.chats.map (fun c =>
          if c.id == chatId then
            { c with lastMessage := some message.id, lastMessageAt := some now }
          else c),
        nextMessageId := st.nextMessageId + 1 }
    let populated := populateSender st.users message
    let ems := ⟨.room (chatRoomKey chatId), "new-message", .newMessage populated⟩ ::
      chat.participants.map (fun p =>
        ⟨.room (userRoomKey p), "new-message", .newMessage populated⟩)
    (st1, ems)

/-- The typing handler: forward the payload to the chat room excluding
the sender, then look up the chat and forward the same payload to the
personal room of the first participant whose identity differs from the
sender; lookup failures are swallowed. No state changes. -/
def typingHandler (st : ServerState) (userId sid chatId : String)
    (isTyping : Bool) : List Emission :=
  let payload := Payload.typing userId chatId isTyping
  let head : Emission := ⟨.roomExcept (chatRoomKey chatId) sid, "typing", payload⟩
  match st.chats.find? (fun c => c.id == chatId) with
  | none => [head]
  | some chat =>
    match chat.participants.find? (fun p => p != userId) with
    | none => [head]
    | some other => [head, ⟨.room (userRoomKey other), "typing", payload⟩]

/-- The disconnect handler plus transport cleanup: delete the identity
from the online-users map (keyed by identity alone), broadcast
user-offline to everyone else, then drop the socket from the connected
set and from all rooms. -/
def handleDisconnect (st : ServerState) (userId sid : String) :
    ServerState × List Emission :=
  let ems : List Emission := [⟨.broadcastFrom sid, "user-offline", .userOffline userId⟩]
  ({ st with onlineUsers := mapDelete st.onlineUsers userId,
             connected := st.connected.filter (fun s => s != sid),
             rooms := st.rooms.filter (fun r => r.2 != sid) }, ems)

theorem mapGet_mapSet_self (m : List (String × String)) (k v : String) :
    mapGet (mapSet m k v) k = some v := by
  induction m with
  | nil => simp [mapSet, mapGet]
  | cons a rest ih =>
    obtain ⟨k', v'⟩ := a
    by_cases h : k' = k
    · simp [mapSet, mapGet, h]
    · simp [mapSet, mapGet, h, ih]

theorem mapGet_mapDelete_self (m : List (String × String)) (k : String) :
    mapGet (mapDelete m k) k = none := by
  induction m with
  | nil => rfl
  | cons a rest ih =>
    obtain ⟨k', v'⟩ := a
    by_cases h : k' = k
    · simpa [mapDelete, List.filter, h] using ih
    · simpa [mapDelete, List.filter, h, mapGet] using ih

theorem not_mem_mapKeys_of_mapGet_none (m : List (String × String)) (u : String)
    (h : mapGet m u = none) : u ∉ mapKeys m := by
  induction m with
  | nil => simp [mapKeys]
  | cons a rest ih =>
    obtain ⟨k', v'⟩ := a
    by_cases hk : k' = u
    · simp [mapGet, hk] at h
    · simp only [mapGet, if_neg hk] at h
      simp only [mapKeys, List.map_cons, List.mem_cons, not_or]
      exact ⟨fun he => hk he.symm, ih h⟩

theorem chatRoomKey_ne_userRoomKey (c u : String) : chatRoomKey c ≠ userRoomKey u := by
  intro h
  have hd := congrArg String.data h
  simp [chatRoomKey, userRoomKey, String.data_append] at hd

theorem userRoomKey_inj {p q : String} (h : userRoomKey p = userRoomKey q) : p = q := by
  have hd := congrArg String.data h
  simp only [userRoomKey, String.data_append] at hd
  exact String.ext (List.append_cancel_left hd)

theorem inRoom_iff (rooms : List (String × String)) (key sid : String) :
    inRoom rooms key sid = true ↔ (key, sid) ∈ rooms :=
  List.elem_iff

theorem mem_joinRoom_iff (rooms : List (String × String)) (key sid : String)
    (x : String × String) :
    x ∈ joinRoom rooms key sid ↔ x ∈ rooms ∨ x = (key, sid) := by
  unfold joinRoom
  split
  · rename_i h
    constructor
    · exact Or.inl
    · rintro (hx | hx)
      · exact hx
      · exact hx ▸ List.elem_iff.mp h
  · simp [List.mem_append]

/-- C3: after a successful admission the connection handler leaves the
Presence Registry mapping the identity to the new connection handle,
and a subsequent run of the disconnect handler for that connection
removes the identity entry from the registry. -/
theorem presence_register_then_unregister (st st2 : ServerState) (u sid : String) :
    mapGet (acceptConnection st u sid).1.onlineUsers u = some sid ∧
    mapGet (handleDisconnect st2 u sid).1.onlineUsers u = none := by
  constructor
  · simp [acceptConnection, connectionHandler, mapGet_mapSet_self]
  · simp [handleDisconnect, mapGet_mapDelete_self]

/-- C10: a chat channel key never equals a personal channel key
(disjoint chat: and user: prefixes), and therefore a join-chat request,
whatever chat identifier it carries, leaves membership of every
personal channel unchanged. -/
theorem channel_namespaces_disjoint (c u : String) (st : ServerState) (sid t : String) :
    chatRoomKey c ≠ userRoomKey u ∧
    (inRoom (joinChatHandler st sid c).rooms (userRoomKey u) t = true ↔
      inRoom st.rooms (userRoomKey u) t = true) := by
  refine ⟨chatRoomKey_ne_userRoomKey c u, ?_⟩
  rw [inRoom_iff, inRoom_iff]
  simp only [joinChatHandler]
  rw [mem_joinRoom_iff]
  constructor
  · rintro (hm | he)
    · exact hm
    · exact absurd (congrArg Prod.fst he).symm (chatRoomKey_ne_userRoomKey c u)
  · exact Or.inl

/-- C8: a connection attempt whose handshake carries no credential
(absent or empty token) is rejected by the auth middleware without
invoking the Identity Verifier, and the whole attempt leaves the state
unchanged — in particular no Presence Registry entry is created — and
emits nothing. -/
theorem no_credential_rejected (verifyToken : String → Option String)
    (findUserByClerkId : String → Option User) (st : ServerState)
    (sid : String) (token : Option String)
    (h : token = none ∨ token = some "") :
    authMiddleware verifyToken findUserByClerkId token = (Except.error "Unauthorized", false) ∧
    processConnectionAttempt verifyToken findUserByClerkId st token sid = (st, [], false) := by
  rcases h with h | h <;> subst h <;>
    simp [authMiddleware, processConnectionAttempt]

theorem no_credential_rejected_witness :
    ((none : Option String) = none ∨ (none : Option String) = some "") ∧
    (authMiddleware (fun _ => none) (fun _ => none) none = (Except.error "Unauthorized", false) ∧
     processConnectionAttempt (fun _ => none) (fun _ => none) emptyState none "s1" =
       (emptyState, [], false)) :=
  ⟨Or.inl rfl,
   no_credential_rejected (fun _ => none) (fun _ => none) emptyState "s1" none (Or.inl rfl)⟩

/-- C6: the disconnect handler emits exactly one user-offline event
carrying the departing identity, as a broadcast from the departing
socket: every other currently-connected socket receives it exactly
once, and the departing socket itself receives nothing. -/
theorem disconnect_broadcasts_offline (st : ServerState) (u sid t : String)
    (hconn : st.connected.contains t = true) :
    (handleDisconnect st u sid).2 = [⟨.broadcastFrom sid, "user-offline", .userOffline u⟩] ∧
    (deliveredTo st (handleDisconnect st u sid).2 t).length = (if t = sid then 0 else 1) := by
  refine ⟨rfl, ?_⟩
  by_cases h : t = sid
  · subst h; simp [deliveredTo, deliversTo, handleDisconnect]
  · have hmem : t ∈ st.connected := List.elem_iff.mp hconn
    simp [deliveredTo, deliversTo, handleDisconnect, hmem, bne_iff_ne, Ne.symm h, h]

def demoConnectedState : ServerState :=
  { emptyState with connected := ["s1", "s2"] }

theorem disconnect_broadcasts_offline_witness :
    (demoConnectedState.connected.contains "s2" = true) ∧
    ((handleDisconnect demoConnectedState "u1" "s1").2 =
       [⟨.broadcastFrom "s1", "user-offline", .userOffline "u1"⟩] ∧
     (deliveredTo demoConnectedState (handleDisconnect demoConnectedState "u1" "s1").2 "s2").length =
       (if "s2" = "s1" then 0 else 1)) :=
  ⟨by decide, disconnect_broadcasts_offline demoConnectedState "u1" "s1" "s2" (by decide)⟩

/-- C1: a send-message naming a chat that does not exist with the
sender among its participants changes nothing — no message is created
and no chat is touched — and produces exactly one socket-error event,
delivered to the sender and to nobody else. -/
theorem send_to_nonmember_rejected (st : ServerState) (userId sid chatId text : String)
    (now : Nat)
    (hfind : st.chats.find? (fun c => c.id == chatId && c.participants.contains userId) = none)
    (hconn : st.connected.contains sid = true) :
    (sendMessageHandler st userId sid chatId text now).1 = st ∧
    (sendMessageHandler st userId sid chatId text now).2 =
      [⟨.socket sid, "socket-error", .socketError "Chat not found"⟩] ∧
    deliveredTo st (sendMessageHandler st userId sid chatId text now).2 sid =
      [⟨.socket sid, "socket-error", .socketError "Chat not found"⟩] ∧
    ∀ t, t ≠ sid → deliveredTo st (sendMessageHandler st userId sid chatId text now).2 t = [] := by
  have hmem : sid ∈ st.connected := List.elem_iff.mp hconn
  have hdef : sendMessageHandler st userId sid chatId text now =
      (st, [⟨.socket sid, "socket-error", .socketError "Chat not found"⟩]) := by
    unfold sendMessageHandler
    rw [hfind]
  rw [hdef]
  refine ⟨rfl, rfl, ?_, ?_⟩
  · simp [deliveredTo, deliversTo, hmem]
  · intro t ht
    simp [deliveredTo, deliversTo, Ne.symm ht]

def demoRejectState : ServerState :=
  { emptyState with chats := [⟨"c2", ["u2", "u3"], none, none⟩], connected := ["s1", "s2"] }

theorem send_to_nonmember_rejected_witness :
    (demoRejectState.chats.find? (fun c => c.id == "c2" && c.participants.contains "u1") = none) ∧
    (demoRejectState.connected.contains "s1" = true) ∧
    ((sendMessageHandler demoRejectState "u1" "s1" "c2" "hi" 5).1 = demoRejectState ∧
     (sendMessageHandler demoRejectState "u1" "s1" "c2" "hi" 5).2 =
       [⟨.socket "s1", "socket-error", .socketError "Chat not found"⟩] ∧
     deliveredTo demoRejectState (sendMessageHandler demoRejectState "u1" "s1" "c2" "hi" 5).2 "s1" =
       [⟨.socket "s1", "socket-error", .socketError "Chat not found"⟩] ∧
     ∀ t, t ≠ "s1" →
       deliveredTo demoRejectState (sendMessageHandler demoRejectState "u1" "s1" "c2" "hi" 5).2 t = []) :=
  ⟨by decide, by decide,
   send_to_nonmember_rejected demoRejectState "u1" "s1" "c2" "hi" 5 (by decide) (by decide)⟩

/-- C4 counterexample: when identity u1 is already registered (its
first connection s1 is still online) and a second connection s2 for u1
is admitted, the online-users event sent to s2 carries userIds equal to
the singleton list holding u1 — the admitted connection receives its
own identity in the list, contrary to the claim that it never does. -/
theorem online_users_self_cex :
    ∃ e ∈ (acceptConnection (acceptConnection emptyState "u1" "s1").1 "u1" "s2").2,
      e.event = "online-users" ∧ e.target = .socket "s2" ∧
      e.payload = .onlineUsers ["u1"] ∧ "u1" ∈ (["u1"] : List String) := by
  decide

/-- C4 amended: each admission emits exactly one online-users event,
targeted at the admitted socket and delivered there, whose userIds list
is the registry snapshot taken immediately before the admitted identity
is registered; when that identity had no presence entry already, the
list does not contain it. -/
theorem online_users_snapshot (st : ServerState) (u sid : String)
    (hfresh : mapGet st.onlineUsers u = none) :
    (acceptConnection st u sid).2.filter (fun e => e.event == "online-users") =
      [⟨.socket sid, "online-users", .onlineUsers (mapKeys st.onlineUsers)⟩] ∧
    u ∉ mapKeys st.onlineUsers ∧
    deliveredTo (acceptConnection st u sid).1
        ((acceptConnection st u sid).2.filter (fun e => e.event == "online-users")) sid =
      [⟨.socket sid, "online-users", .onlineUsers (mapKeys st.onlineUsers)⟩] := by
  refine ⟨?_, not_mem_mapKeys_of_mapGet_none _ _ hfresh, ?_⟩
  · simp [acceptConnection, connectionHandler]
  · simp [acceptConnection, connectionHandler, deliveredTo, deliversTo]

theorem online_users_snapshot_witness :
    mapGet emptyState.onlineUsers "u1" = none ∧
    ((acceptConnection emptyState "u1" "s1").2.filter (fun e => e.event == "online-users") =
       [⟨.socket "s1", "online-users", .onlineUsers (mapKeys emptyState.onlineUsers)⟩] ∧
     "u1" ∉ mapKeys emptyState.onlineUsers ∧
     deliveredTo (acceptConnection emptyState "u1" "s1").1
         ((acceptConnection emptyState "u1" "s1").2.filter (fun e => e.event == "online-users")) "s1" =
       [⟨.socket "s1", "online-users", .onlineUsers (mapKeys emptyState.onlineUsers)⟩]) :=
  ⟨rfl, online_users_snapshot emptyState "u1" "s1" rfl⟩

/-- C5: presence unregistration is keyed by identity alone. If identity
u is admitted on s1, then admitted again on s2 (replacing the entry),
and afterwards s1 disconnects, the disconnect handler removes the
presence entry of u and broadcasts a user-offline event for u that the
still-connected s2 receives — even though s2 is a live admitted
connection for u. -/
theorem disconnect_keyed_by_identity (st st1 st2 : ServerState) (u s1 s2 : String)
    (hne : s1 ≠ s2)
    (h1 : st1 = (acceptConnection st u s1).1)
    (h2 : st2 = (acceptConnection st1 u s2).1) :
    mapGet (handleDisconnect st2 u s1).1.onlineUsers u = none ∧
    (handleDisconnect st2 u s1).1.connected.contains s2 = true ∧
    (handleDisconnect st2 u s1).2 = [⟨.broadcastFrom s1, "user-offline", .userOffline u⟩] ∧
    (deliveredTo st2 (handleDisconnect st2 u s1).2 s2).length = 1 := by
  subst h2; subst h1
  refine ⟨mapGet_mapDelete_self _ _, ?_, rfl, ?_⟩
  · simp [handleDisconnect, acceptConnection, connectionHandler, List.mem_filter,
          bne_iff_ne, Ne.symm hne]
  · simp [deliveredTo, deliversTo, acceptConnection, connectionHandler, handleDisconnect,
          bne_iff_ne, hne]

def demoStaleState1 : ServerState :=
  { emptyState with
      onlineUsers := [("u1", "s1")]
      rooms := [("user:u1", "s1")]
      connected := ["s1"] }

def demoStaleState2 : ServerState :=
  { emptyState with
      onlineUsers := [("u1", "s2")]
      rooms := [("user:u1", "s1"), ("user:u1", "s2")]
      connected := ["s1", "s2"] }

theorem disconnect_keyed_by_identity_witness :
    ("s1" : String) ≠ "s2" ∧
    demoStaleState1 = (acceptConnection emptyState "u1" "s1").1 ∧
    demoStaleState2 = (acceptConnection demoStaleState1 "u1" "s2").1 ∧
    (mapGet (handleDisconnect demoStaleState2 "u1" "s1").1.onlineUsers "u1" = none ∧
     (handleDisconnect demoStaleState2 "u1" "s1").1.connected.contains "s2" = true ∧
     (handleDisconnect demoStaleState2 "u1" "s1").2 =
       [⟨.broadcastFrom "s1", "user-offline", .userOffline "u1"⟩] ∧
     (deliveredTo demoStaleState2 (handleDisconnect demoStaleState2 "u1" "s1").2 "s2").length = 1) :=
  ⟨by decide, by decide, by decide,
   disconnect_keyed_by_identity emptyState demoStaleState1 demoStaleState2 "u1" "s1" "s2"
     (by decide) (by decide) (by decide)⟩

/-- C7: a typing signal from an authenticated connection is forwarded
with payload (senderIdentity, chatId, isTyping) to the chat channel
excluding the sender, and additionally to the personal channel of the
first chat participant whose identity differs from the sender; the
identity notified really differs from the sender, and the sender
receives nothing from either emission. -/
theorem typing_relay_fanout (st : ServerState) (userId sid chatId : String) (isTyping : Bool)
    (chat : Chat) (other : String)
    (hchat : st.chats.find? (fun c => c.id == chatId) = some chat)
    (hother : chat.participants.find? (fun p => p != userId) = some other)
    (hnotin : inRoom st.rooms (userRoomKey other) sid = false) :
    typingHandler st userId sid chatId isTyping =
      [⟨.roomExcept (chatRoomKey chatId) sid, "typing", .typing userId chatId isTyping⟩,
       ⟨.room (userRoomKey other), "typing", .typing userId chatId isTyping⟩] ∧
    other ≠ userId ∧
    deliveredTo st (typingHandler st userId sid chatId isTyping) sid = [] := by
  have hne : other ≠ userId := by
    have hx := List.find?_some hother
    simpa [bne_iff_ne] using hx
  have hdef : typingHandler st userId sid chatId isTyping =
      [⟨.roomExcept (chatRoomKey chatId) sid, "typing", .typing userId chatId isTyping⟩,
       ⟨.room (userRoomKey other), "typing", .typing userId chatId isTyping⟩] := by
    simp only [typingHandler, hchat, hother]
  refine ⟨hdef, hne, ?_⟩
  rw [hdef]
  simp [deliveredTo, deliversTo, hnotin]

def demoChatState : ServerState :=
  { emptyState with
      chats := [⟨"c1", ["u1", "u2"], none, none⟩]
      connected := ["s1", "s2"]
      rooms := [("user:u1", "s1"), ("user:u2", "s2"), ("chat:c1", "s2")] }

theorem typing_relay_fanout_witness :
    (demoChatState.chats.find? (fun c => c.id == "c1") =
       some ⟨"c1", ["u1", "u2"], none, none⟩) ∧
    ((["u1", "u2"] : List String).find? (fun p => p != "u1") = some "u2") ∧
    (inRoom demoChatState.rooms (userRoomKey "u2") "s1" = false) ∧
    (typingHandler demoChatState "u1" "s1" "c1" true =
       [⟨.roomExcept (chatRoomKey "c1") "s1", "typing", .typing "u1" "c1" true⟩,
        ⟨.room (userRoomKey "u2"), "typing", .typing "u1" "c1" true⟩] ∧
     ("u2" : String) ≠ "u1" ∧
     deliveredTo demoChatState (typingHandler demoChatState "u1" "s1" "c1" true) "s1" = []) :=
  ⟨by decide, by decide, by decide,
   typing_relay_fanout demoChatState "u1" "s1" "c1" true ⟨"c1", ["u1", "u2"], none, none⟩ "u2"
     (by decide) (by decide) (by decide)⟩

/-- C9: a successful send-message appends exactly the new message
record to the store, and updates the found chat so that its
last-message reference is the new message id and its last-activity
timestamp is the send time while its identifier and participant set are
unchanged; every chat with a different identifier is left in the store
untouched. -/
theorem send_message_updates_chat (st : ServerState) (userId sid chatId text : String)
    (now : Nat) (chat : Chat)
    (hfind : st.chats.find? (fun c => c.id == chatId && c.participants.contains userId) =
      some chat) :
    (sendMessageHandler st userId sid chatId text now).1.messages =
      st.messages ++ [⟨st.nextMessageId, chatId, userId, text⟩] ∧
    (∃ c', c' ∈ (sendMessageHandler st userId sid chatId text now).1.chats ∧
      c'.id = chat.id ∧ c'.participants = chat.participants ∧
      c'.lastMessage = some st.nextMessageId ∧ c'.lastMessageAt = some now) ∧
    (∀ c ∈ st.chats, c.id ≠ chatId →
      c ∈ (sendMessageHandler st userId sid chatId text now).1.chats) := by
  have hp := List.find?_some hfind
  rw [Bool.and_eq_true] at hp
  have hid : chat.id = chatId := by simpa using hp.1
  have hmemc : chat ∈ st.chats := List.mem_of_find?_eq_some hfind
  refine ⟨?_, ?_, ?_⟩
  · simp only [sendMessageHandler, hfind]
  · refine ⟨{ chat with lastMessage := some st.nextMessageId, lastMessageAt := some now }, ?_, rfl, rfl, rfl, rfl⟩
    simp only [sendMessageHandler, hfind]
    have hfc : ({ chat with lastMessage := some st.nextMessageId, lastMessageAt := some now } : Chat) = (fun c => if c.id == chatId then { c with lastMessage := some st.nextMessageId, lastMessageAt := some now } else c) chat := by
      simp [hid]
    rw [hfc]
    exact List.mem_map_of_mem _ hmemc
  · intro c hc hne
    simp only [sendMessageHandler, hfind]
    have hfc : (fun c => if c.id == chatId then { c with lastMessage := some st.nextMessageId, lastMessageAt := some now } else c) c = c := by
      simp [hne]
    exact hfc ▸ List.mem_map_of_mem _ hc

theorem send_message_updates_chat_witness :
    (demoChatState.chats.find? (fun c => c.id == "c1" && c.participants.contains "u1") =
       some ⟨"c1", ["u1", "u2"], none, none⟩) ∧
    ((sendMessageHandler demoChatState "u1" "s1" "c1" "hi" 5).1.messages =
       demoChatState.messages ++ [⟨demoChatState.nextMessageId, "c1", "u1", "hi"⟩] ∧
     (∃ c', c' ∈ (sendMessageHandler demoChatState "u1" "s1" "c1" "hi" 5).1.chats ∧
       c'.id = (⟨"c1", ["u1", "u2"], none, none⟩ : Chat).id ∧
       c'.participants = (⟨"c1", ["u1", "u2"], none, none⟩ : Chat).participants ∧
       c'.lastMessage = some demoChatState.nextMessageId ∧ c'.lastMessageAt = some 5) ∧
     (∀ c ∈ demoChatState.chats, c.id ≠ "c1" →
       c ∈ (sendMessageHandler demoChatState "u1" "s1" "c1" "hi" 5).1.chats)) :=
  ⟨by decide,
   send_message_updates_chat demoChatState "u1" "s1" "c1" "hi" 5
     ⟨"c1", ["u1", "u2"], none, none⟩ (by decide)⟩

theorem filter_beq_of_nodup (l : List String) (p : String) (hd : l.Nodup) (hm : p ∈ l) :
    l.filter (fun q => q == p) = [p] := by
  induction l with
  | nil => cases hm
  | cons a rest ih =>
    rw [List.nodup_cons] at hd
    rcases List.mem_cons.mp hm with h | h
    · subst h
      have hrest : rest.filter (fun q => q == p) = [] := by
        rw [List.filter_eq_nil_iff]
        intro b hb hba
        rw [beq_iff_eq] at hba
        exact hd.1 (hba ▸ hb)
      simp [List.filter_cons, hrest]
    · have hne : a ≠ p := by
        intro he
        rw [he] at hd
        exact hd.1 h
      simp [List.filter_cons, hne, beq_iff_eq, ih hd.2 h]

theorem userEm_filter_chatKey (ps : List String) (chatId : String) (pm : PopulatedMessage) :
    (ps.map (fun q => (⟨.room (userRoomKey q), "new-message", .newMessage pm⟩ : Emission))).filter
      (fun e => e.target == Target.room (chatRoomKey chatId)) = [] := by
  rw [List.filter_eq_nil_iff]
  intro e he
  obtain ⟨q, hq, rfl⟩ := List.mem_map.mp he
  simp only [beq_iff_eq, Target.room.injEq]
  exact fun h => chatRoomKey_ne_userRoomKey chatId q h.symm

theorem userEm_filter_userKey (ps : List String) (p : String) (pm : PopulatedMessage)
    (hd : ps.Nodup) (hm : p ∈ ps) :
    (ps.map (fun q => (⟨.room (userRoomKey q), "new-message", .newMessage pm⟩ : Emission))).filter
      (fun e => e.target == Target.room (userRoomKey p)) =
      [⟨.room (userRoomKey p), "new-message", .newMessage pm⟩] := by
  rw [List.filter_map]
  have hcong : ps.filter
      ((fun e => e.target == Target.room (userRoomKey p)) ∘
        (fun q => (⟨.room (userRoomKey q), "new-message", .newMessage pm⟩ : Emission))) =
      ps.filter (fun q => q == p) := by
    apply List.filter_congr
    intro q hq
    rw [Bool.eq_iff_iff]
    simp only [Function.comp_apply, beq_iff_eq, Target.room.injEq]
    exact ⟨fun he => userRoomKey_inj he, fun he => congrArg userRoomKey he⟩
  rw [hcong, filter_beq_of_nodup ps p hd hm]
  rfl

/-- C2: a successful send-message to chat C emits exactly one
new-message event carrying the populated message to the chat channel of
C, exactly one new-message event with the same message to the personal
channel of each participant, and a participant connection that is
joined to both the chat channel and its own personal channel (and to no
other participant's personal channel) receives the message exactly
twice. -/
theorem send_message_double_delivery (st : ServerState) (userId sid chatId text : String)
    (now : Nat) (chat : Chat) (t p0 : String)
    (hfind : st.chats.find? (fun c => c.id == chatId && c.participants.contains userId) =
      some chat)
    (hnodup : chat.participants.Nodup)
    (hp0 : p0 ∈ chat.participants)
    (hconn : st.connected.contains t = true)
    (hchatroom : inRoom st.rooms (chatRoomKey chatId) t = true)
    (hpersroom : inRoom st.rooms (userRoomKey p0) t = true)
    (hothers : ∀ q ∈ chat.participants, q ≠ p0 → inRoom st.rooms (userRoomKey q) t = false) :
    (sendMessageHandler st userId sid chatId text now).2.filter
        (fun e => e.target == Target.room (chatRoomKey chatId)) =
      [⟨.room (chatRoomKey chatId), "new-message",
        .newMessage (populateSender st.users ⟨st.nextMessageId, chatId, userId, text⟩)⟩] ∧
    (∀ p ∈ chat.participants,
      (sendMessageHandler st userId sid chatId text now).2.filter
          (fun e => e.target == Target.room (userRoomKey p)) =
        [⟨.room (userRoomKey p), "new-message",
          .newMessage (populateSender st.users ⟨st.nextMessageId, chatId, userId, text⟩)⟩]) ∧
    ((sendMessageHandler st userId sid chatId text now).2.filter
        (fun e => e.event == "new-message" &&
          deliversTo (sendMessageHandler st userId sid chatId text now).1 e t)).length = 2 := by
  have hmem : t ∈ st.connected := List.elem_iff.mp hconn
  refine ⟨?_, ?_, ?_⟩
  · simp only [sendMessageHandler, hfind]
    rw [List.filter_cons_of_pos (by simp)]
    rw [userEm_filter_chatKey]
  · intro p hp
    simp only [sendMessageHandler, hfind]
    rw [List.filter_cons_of_neg (by simp [beq_iff_eq]; exact fun h => chatRoomKey_ne_userRoomKey chatId p h)]
    rw [userEm_filter_userKey chat.participants p _ hnodup hp]
  · simp only [sendMessageHandler, hfind]
    rw [List.filter_cons_of_pos (by simp [deliversTo, hmem, hchatroom])]
    rw [List.length_cons, List.filter_map, List.length_map]
    have hcount : (chat.participants.filter
        ((fun e => e.event == "new-message" &&
            deliversTo { st with
              messages := st.messages ++ [⟨st.nextMessageId, chatId, userId, text⟩],
              chats := st.chats.map (fun c => if c.id == chatId then { c with lastMessage := some st.nextMessageId, lastMessageAt := some now } else c),
              nextMessageId := st.nextMessageId + 1 } e t) ∘
          (fun q => (⟨.room (userRoomKey q), "new-message",
            .newMessage (populateSender st.users ⟨st.nextMessageId, chatId, userId, text⟩)⟩ : Emission)))).length = 1 := by
      rw [← List.countP_eq_length_filter]
      have hcong := List.countP_congr (l := chat.participants)
        (p := (fun e => e.event == "new-message" &&
            deliversTo { st with
              messages := st.messages ++ [⟨st.nextMessageId, chatId, userId, text⟩],
              chats := st.chats.map (fun c => if c.id == chatId then { c with lastMessage := some st.nextMessageId, lastMessageAt := some now } else c),
              nextMessageId := st.nextMessageId + 1 } e t) ∘
          (fun q => (⟨.room (userRoomKey q), "new-message",
            .newMessage (populateSender st.users ⟨st.nextMessageId, chatId, userId, text⟩)⟩ : Emission)))
        (q := fun q => q == p0) ?_
      · rw [hcong]
        have : chat.participants.countP (fun q => q == p0) = chat.participants.count p0 := rfl
        rw [this, List.count_eq_one_of_mem hnodup hp0]
      · intro q hq
        simp only [Function.comp_apply, deliversTo, inRoom, beq_iff_eq]
        constructor
        · intro hx
          by_cases h : q = p0
          · exact h
          · exfalso
            have hz := hothers q hq h
            have hz' : (userRoomKey q, t) ∉ st.rooms := by
              intro hmem2
              have hzt := (inRoom_iff st.rooms (userRoomKey q) t).mpr hmem2
              rw [hz] at hzt
              exact Bool.false_ne_true hzt
            simp [deliversTo, inRoom, hz', hmem] at hx
        · intro hx
          subst hx
          simp [deliversTo, inRoom, hmem]
          exact List.elem_iff.mp hpersroom
    rw [hcount]

theorem send_message_double_delivery_witness :
    (demoChatState.chats.find? (fun c => c.id == "c1" && c.participants.contains "u1") =
       some ⟨"c1", ["u1", "u2"], none, none⟩) ∧
    (⟨"c1", ["u1", "u2"], none, none⟩ : Chat).participants.Nodup ∧
    ("u2" ∈ (⟨"c1", ["u1", "u2"], none, none⟩ : Chat).participants) ∧
    (demoChatState.connected.contains "s2" = true) ∧
    (inRoom demoChatState.rooms (chatRoomKey "c1") "s2" = true) ∧
    (inRoom demoChatState.rooms (userRoomKey "u2") "s2" = true) ∧
    (∀ q ∈ (⟨"c1", ["u1", "u2"], none, none⟩ : Chat).participants, q ≠ "u2" →
      inRoom demoChatState.rooms (userRoomKey q) "s2" = false) ∧
    ((sendMessageHandler demoChatState "u1" "s1" "c1" "hi" 5).2.filter
        (fun e => e.target == Target.room (chatRoomKey "c1")) =
      [⟨.room (chatRoomKey "c1"), "new-message",
        .newMessage (populateSender demoChatState.users ⟨demoChatState.nextMessageId, "c1", "u1", "hi"⟩)⟩] ∧
    (∀ p ∈ (⟨"c1", ["u1", "u2"], none, none⟩ : Chat).participants,
      (sendMessageHandler demoChatState "u1" "s1" "c1" "hi" 5).2.filter
          (fun e => e.target == Target.room (userRoomKey p)) =
        [⟨.room (userRoomKey p), "new-message",
          .newMessage (populateSender demoChatState.users ⟨demoChatState.nextMessageId, "c1", "u1", "hi"⟩)⟩]) ∧
    ((sendMessageHandler demoChatState "u1" "s1" "c1" "hi" 5).2.filter
        (fun e => e.event == "new-message" &&
          deliversTo (sendMessageHandler demoChatState "u1" "s1" "c1" "hi" 5).1 e "s2")).length = 2) :=
  ⟨by decide, by decide, by decide, by decide, by decide, by decide, by decide,
   send_message_double_delivery demoChatState "u1" "s1" "c1" "hi" 5
     ⟨"c1", ["u1", "u2"], none, none⟩ "s2" "u2"
     (by decide) (by decide) (by decide) (by decide) (by decide) (by decide) (by decide)⟩

end ChatHeretics
